import Mathlib

/-!
Verification of the collaborative task-manager client.

The definitions below are a shallow embedding of the JavaScript sources:

* `src/src/hooks/useTasks.js` — the task view model: the socket handlers
  that patch the locally cached task list (`applyUpdate`, `applyCreate`,
  `applyDelete` in the spec's vocabulary) and the `getTasksData` loader.
* `src/src/lib/apiClient.js` (socket half) — the change-notification
  channel singleton: `initSocket`, `closeSocket`, the emit helpers and the
  inbound registration helpers.
* `src/task-management-frontend-main/src/components/TaskItem.js` — the
  per-item mutation handlers and the `isOverdue` predicate.
* `src/src/components/TaskForm.js` — the create/edit submit handler.

JavaScript objects are modelled as an identifier plus an ordered list of
(field name, value) entries; the object spread `{...old, ...new}` is
modelled by `spreadFields`.  Machine-level concerns (prototype chains,
numeric coercion) do not arise in the patched code paths.
-/

namespace TaskManager

/-- A task as held in the view model's collection: the JS object's `id`
property plus its remaining enumerable fields in insertion order.
Field values are kept abstract as strings. -/
structure Task where
  id : String
  fields : List (String × String)
deriving Repr, DecidableEq

/-- First-match lookup of a field name in an ordered field list (the value
`obj[k]` reads on a well-formed object). -/
def lookupField (k : String) : List (String × String) → Option String
  | [] => none
  | (k2, v) :: rest => if k2 = k then some v else lookupField k rest

/-- The rewrite a single entry of `old` undergoes in `{...old, ...new}`:
its value is replaced when `new` also has the key, else kept. -/
def updEntry (news : List (String × String)) (kv : String × String) :
    String × String :=
  match lookupField kv.1 news with
  | some v => (kv.1, v)
  | none => kv

/-- JS object spread `{...old, ...new}`: the keys of `old` in order, each
carrying `new`'s value when `new` has the key, followed by the keys of
`new` absent from `old`, in order. -/
def spreadFields (old news : List (String × String)) :
    List (String × String) :=
  old.map (updEntry news) ++ news.filter fun kv => (lookupField kv.1 old).isNone

/-- `{ ...task, ...updatedTask }` on tasks (useTasks.js line 76): the
updated task's own fields win, and its `id` is the spread result's `id`. -/
def mergeTask (old news : Task) : Task :=
  { id := news.id, fields := spreadFields old.fields news.fields }

/-- The `onTaskUpdated` handler of useTasks.js (lines 73–79): map over the
previous collection, shallow-merging the updated task into the entry whose
`id` matches, leaving every other entry alone. -/
def applyUpdate (updatedTask : Task) (prevTasks : List Task) : List Task :=
  prevTasks.map fun task =>
    if task.id = updatedTask.id then mergeTask task updatedTask else task

/-- The `onTaskCreated` handler of useTasks.js (lines 81–83): prepend the
new task unconditionally. -/
def applyCreate (newTask : Task) (prevTasks : List Task) : List Task :=
  newTask :: prevTasks

/-- The `onTaskDeleted` handler of useTasks.js (lines 85–87): keep exactly
the entries whose `id` differs from the deleted id. -/
def applyDelete (deletedTaskId : String) (prevTasks : List Task) : List Task :=
  prevTasks.filter fun task => task.id ≠ deletedTaskId

/-- A JS object never has two enumerable own properties with the same
name; a field list modelling one therefore has no duplicate keys. -/
def WFFields (l : List (String × String)) : Prop :=
  (l.map Prod.fst).Nodup

instance (l : List (String × String)) : Decidable (WFFields l) := by
  unfold WFFields; infer_instance

/- ### The loader `getTasksData` (useTasks.js lines 33–64) -/

/-- An HTTP failure as the axios client rejects it: the optional response
status (`err.response?.status`) and optional server message
(`err.response?.data?.message`); a pure transport failure carries neither. -/
structure FetchErr where
  status : Option Nat
  message : Option String
deriving Repr, DecidableEq

/-- The state a `getTasksData` run leaves behind: the cached collection
(`tasks`), the loading flag, the surfaced error message (`setError`), and
whether `router.push` to the login page was issued during the run. -/
structure TasksState where
  tasks : List Task
  isLoading : Bool
  error : Option String
  redirectedToLogin : Bool
deriving Repr, DecidableEq

/-- `getTasksData` of useTasks.js: the fetch result is either a response
whose `data?.data` may be missing (`|| []` fills in the empty list) or a
rejection.  The whole body sits in try/catch/finally, so the run is a
total function of the outcome — every rejection is handled, `setTasks` is
never called on the failure path, `setError` always is, and
`router.push('/login')` fires exactly when the status is 401. -/
def getTasksData (prev : TasksState)
    (response : Except FetchErr (Option (List Task))) : TasksState :=
  match response with
  | .ok d =>
    { tasks := d.getD [], isLoading := false, error := none,
      redirectedToLogin := false }
  | .error err =>
    { tasks := prev.tasks, isLoading := false,
      error := some (err.message.getD "Failed to fetch tasks"),
      redirectedToLogin := err.status == some 401 }

/- ### TaskItem.js: the rendered task and its overdue predicate -/

/-- A task as `TaskItem` renders it; `dueDate` is an optional instant in
epoch milliseconds (absent when the JS value is falsy). -/
structure ItemTask where
  id : String
  title : String
  status : String
  priority : String
  dueDate : Option Int
deriving Repr, DecidableEq

/-- TaskItem.js line 107:
`task.dueDate && new Date(task.dueDate) < new Date() && task.status !== 'Completed'`,
with `now` the wall clock at render. -/
def isOverdue (task : ItemTask) (now : Int) : Bool :=
  match task.dueDate with
  | none => false
  | some d => decide (d < now) && decide (task.status ≠ "Completed")

/- ### Mutation handlers and their channel emissions
(TaskItem.js `handleStatusChange`/`handlePriorityChange`/`handleDelete`,
TaskForm.js `onSubmit`) -/

/-- An outbound event of the change-notification channel, with the payload
the emit helpers are handed (`response.data?.data` may be absent). -/
inductive ChannelEvent where
  | taskUpdated (task : Option ItemTask)
  | taskCreated (task : Option ItemTask)
  | taskDeleted (taskId : String)
  | taskAssigned (assignedToId : String) (taskTitle : String)
      (taskId : Option String)
deriving Repr, DecidableEq

/-- One observable step of a mutation handler: the awaited remote write
(with its outcome) or a channel emission. -/
inductive Action where
  | remoteWrite (succeeded : Bool)
  | emit (event : ChannelEvent)
deriving Repr, DecidableEq

/-- TaskItem.js `handleStatusChange` (lines 28–41): returns early when the
status is unchanged; otherwise awaits `updateTask` and, only when that
write resolved, emits `task-updated` with the response payload — a
rejected write jumps to the catch block before the emit. -/
def handleStatusChange (task : ItemTask) (newStatus : String)
    (writeResult : Except FetchErr (Option ItemTask)) : List Action :=
  if newStatus = task.status then []
  else
    match writeResult with
    | .ok updated => [.remoteWrite true, .emit (.taskUpdated updated)]
    | .error _ => [.remoteWrite false]

/-- TaskItem.js `handlePriorityChange` (lines 46–59): same shape as the
status handler, keyed on the priority. -/
def handlePriorityChange (task : ItemTask) (newPriority : String)
    (writeResult : Except FetchErr (Option ItemTask)) : List Action :=
  if newPriority = task.priority then []
  else
    match writeResult with
    | .ok updated => [.remoteWrite true, .emit (.taskUpdated updated)]
    | .error _ => [.remoteWrite false]

/-- TaskItem.js `handleDelete` (lines 64–76): awaits `deleteTask` and only
then emits `task-deleted` with the task's id. -/
def handleDelete (task : ItemTask)
    (writeResult : Except FetchErr Unit) : List Action :=
  match writeResult with
  | .ok _ => [.remoteWrite true, .emit (.taskDeleted task.id)]
  | .error _ => [.remoteWrite false]

/-- The validated form payload `onSubmit` submits; `assignedToId` is
`none` when the picker is left on Unassigned (empty string, falsy). -/
structure SubmitData where
  title : String
  description : String
  priority : String
  status : String
  dueDate : Option Int
  assignedToId : Option String
deriving Repr, DecidableEq

/-- TaskForm.js `onSubmit` (lines 63–106): when the schema check fails the
function returns before any remote call; with `initialData` present it
awaits `updateTask` and on success emits `task-created` with the response
(the code reuses `emitTaskCreated` in the edit branch); otherwise it
awaits `createTask`, emits `task-created`, and, when an assignee is set,
`task-assigned`.  A rejected write jumps to the catch block, emitting
nothing. -/
def onSubmit (initialData : Option ItemTask) (validationOk : Bool)
    (data : SubmitData) (writeResult : Except FetchErr (Option ItemTask)) :
    List Action :=
  if !validationOk then []
  else
    match initialData with
    | some _ =>
      match writeResult with
      | .ok updated => [.remoteWrite true, .emit (.taskCreated updated)]
      | .error _ => [.remoteWrite false]
    | none =>
      match writeResult with
      | .ok created =>
        [.remoteWrite true, .emit (.taskCreated created)] ++
          match data.assignedToId with
          | some uid =>
            [.emit (.taskAssigned uid data.title (created.map ItemTask.id))]
          | none => []
      | .error _ => [.remoteWrite false]

/-- No channel event occurs in the trace. -/
def noEmit (tr : List Action) : Prop :=
  ∀ e : ChannelEvent, Action.emit e ∉ tr

/-- Every channel emission in the trace is preceded by a remote write that
already succeeded. -/
def emitsAfterSuccess (tr : List Action) : Prop :=
  ∀ i : Nat, ∀ e : ChannelEvent, tr[i]? = some (.emit e) →
    ∃ j : Nat, j < i ∧ tr[j]? = some (.remoteWrite true)

/- ### The socket module (socket half of src/src/lib, lines 173–313) -/

/-- The transport connection the socket module holds: an instance number
(fresh per `io(...)` construction), the connected flag, the userId its
`connect` handler announces, the log of emitted (event, payload) pairs,
and the registered inbound handlers as (event name, callback id). -/
structure Socket where
  instanceId : Nat
  connected : Bool
  joinUserId : String
  emitted : List (String × String)
  handlers : List (String × Nat)
deriving Repr, DecidableEq

/-- The module-level state: `let socket = null` plus a counter supplying
fresh instance numbers to model each `io(...)` call allocating a new
transport. -/
structure SocketModule where
  socket : Option Socket
  nextInstanceId : Nat
deriving Repr, DecidableEq

/-- `initSocket(userId)` (lines 184–207): when a connected socket exists,
re-emit `user-join` on it and return it; otherwise construct a fresh
transport instance whose `connect` handler will announce `userId`. -/
def initSocket (userId : String) (st : SocketModule) :
    Socket × SocketModule :=
  match st.socket with
  | some s =>
    if s.connected then
      let s2 := { s with emitted := s.emitted ++ [("user-join", userId)] }
      (s2, { st with socket := some s2 })
    else
      let s2 : Socket :=
        { instanceId := st.nextInstanceId, connected := false,
          joinUserId := userId, emitted := [], handlers := [] }
      (s2, { socket := some s2, nextInstanceId := st.nextInstanceId + 1 })
  | none =>
    let s2 : Socket :=
      { instanceId := st.nextInstanceId, connected := false,
        joinUserId := userId, emitted := [], handlers := [] }
    (s2, { socket := some s2, nextInstanceId := st.nextInstanceId + 1 })

/-- The `connect` handler `initSocket` installs (lines 197–200): mark the
transport connected and emit `user-join` with the captured userId — the
transport runs this on every successful connect and reconnect. -/
def handleConnect (s : Socket) : Socket :=
  { s with connected := true,
           emitted := s.emitted ++ [("user-join", s.joinUserId)] }

/-- `closeSocket()` (lines 220–225): disconnect and null out the module
socket; a no-op when none is held. -/
def closeSocket (st : SocketModule) : SocketModule :=
  match st.socket with
  | some _ => { st with socket := none }
  | none => st

/-- The shared body of the four inbound registration helpers (lines
277–311): `if (socket) socket.on(name, callback)`, and the function
returns nothing — modelled as `none` in place of a disposal value. -/
def socketOn (eventName : String) (callback : Nat) (st : SocketModule) :
    Option (SocketModule → SocketModule) × SocketModule :=
  match st.socket with
  | some s =>
    let s2 : Socket := { s with handlers := s.handlers ++ [(eventName, callback)] }
    (none, { st with socket := some s2 })
  | none => (none, st)

/-- `onTaskUpdated(callback)` of the socket module. -/
def onTaskUpdated : Nat → SocketModule →
    Option (SocketModule → SocketModule) × SocketModule :=
  socketOn "task-updated"

/-- `onTaskCreated(callback)` of the socket module. -/
def onTaskCreated : Nat → SocketModule →
    Option (SocketModule → SocketModule) × SocketModule :=
  socketOn "task-created"

/-- `onTaskDeleted(callback)` of the socket module. -/
def onTaskDeleted : Nat → SocketModule →
    Option (SocketModule → SocketModule) × SocketModule :=
  socketOn "task-deleted"

/-- `onAssignmentNotification(callback)` of the socket module. -/
def onAssignmentNotification : Nat → SocketModule →
    Option (SocketModule → SocketModule) × SocketModule :=
  socketOn "assignment-notification"

/-- The useTasks socket-effect cleanup (lines 89–93): `unsubscribe?.()` —
apply the disposal value when one exists, otherwise do nothing. -/
def effectCleanup (unsubscribe : Option (SocketModule → SocketModule))
    (st : SocketModule) : SocketModule :=
  match unsubscribe with
  | some f => f st
  | none => st

/- ### Lemmas about field lookup and the spread -/

theorem updEntry_fst (news : List (String × String)) (kv : String × String) :
    (updEntry news kv).1 = kv.1 := by
  unfold updEntry
  cases lookupField kv.1 news <;> rfl

theorem updEntry_idem (news : List (String × String)) (kv : String × String) :
    updEntry news (updEntry news kv) = updEntry news kv := by
  unfold updEntry
  cases h : lookupField kv.1 news with
  | none => simp [h]
  | some v => simp [h]

theorem lookupField_isSome_of_mem {k v : String} :
    ∀ {l : List (String × String)}, (k, v) ∈ l → (lookupField k l).isSome := by
  intro l
  induction l with
  | nil => intro h; cases h
  | cons kv rest ih =>
    intro h
    obtain ⟨k2, v2⟩ := kv
    rcases List.mem_cons.mp h with heq | htail
    · have hk : k2 = k := by
        have := congrArg Prod.fst heq
        exact this.symm
      simp [lookupField, hk]
    · by_cases hk : k2 = k
      · simp [lookupField, hk]
      · simp only [lookupField, if_neg hk]
        exact ih htail

theorem lookupField_eq_of_mem_nodup {k v : String} :
    ∀ {l : List (String × String)}, WFFields l → (k, v) ∈ l →
      lookupField k l = some v := by
  intro l
  induction l with
  | nil => intro _ h; cases h
  | cons kv rest ih =>
    intro hwf h
    obtain ⟨k2, v2⟩ := kv
    unfold WFFields at hwf
    simp only [List.map_cons, List.nodup_cons] at hwf
    rcases List.mem_cons.mp h with heq | htail
    · simp only [Prod.mk.injEq] at heq
      obtain ⟨rfl, rfl⟩ := heq
      simp [lookupField]
    · have hk : k2 ≠ k := by
        intro hkk
        subst hkk
        exact hwf.1 (List.mem_map_of_mem Prod.fst htail)
      simp only [lookupField, if_neg hk]
      exact ih hwf.2 htail

theorem lookupField_append_left {k : String}
    {xs ys : List (String × String)} (h : (lookupField k xs).isSome) :
    lookupField k (xs ++ ys) = lookupField k xs := by
  induction xs with
  | nil => simp [lookupField] at h
  | cons kv rest ih =>
    obtain ⟨k2, v2⟩ := kv
    by_cases hk : k2 = k
    · simp [lookupField, hk]
    · simp only [lookupField, if_neg hk] at h ⊢
      exact ih h

theorem lookupField_append_right {k : String}
    {xs ys : List (String × String)} (h : lookupField k xs = none) :
    lookupField k (xs ++ ys) = lookupField k ys := by
  induction xs with
  | nil => rfl
  | cons kv rest ih =>
    obtain ⟨k2, v2⟩ := kv
    by_cases hk : k2 = k
    · simp [lookupField, hk] at h
    · simp only [lookupField, if_neg hk] at h ⊢
      exact ih h

theorem lookupField_map_updEntry_isSome (news : List (String × String))
    {k : String} {xs : List (String × String)} :
    (lookupField k (xs.map (updEntry news))).isSome
      = (lookupField k xs).isSome := by
  induction xs with
  | nil => rfl
  | cons kv rest ih =>
    obtain ⟨k2, v2⟩ := kv
    by_cases hk : k2 = k
    · subst hk
      cases hnews : lookupField k2 news with
      | none => simp [List.map_cons, updEntry, hnews, lookupField]
      | some v => simp [List.map_cons, updEntry, hnews, lookupField]
    · cases hnews : lookupField k2 news with
      | none =>
        simp only [List.map_cons, updEntry, hnews]
        simp only [lookupField, if_neg hk]
        exact ih
      | some v =>
        simp only [List.map_cons, updEntry, hnews]
        simp only [lookupField, if_neg hk]
        exact ih

theorem map_eq_self_of_mem {α : Type} {f : α → α} {l : List α}
    (h : ∀ x ∈ l, f x = x) : l.map f = l := by
  induction l with
  | nil => rfl
  | cons a rest ih =>
    simp only [List.map_cons, h a (List.mem_cons_self a rest)]
    rw [ih fun x hx => h x (List.mem_cons_of_mem a hx)]

theorem filter_eq_nil_of_mem {α : Type} {p : α → Bool} {l : List α}
    (h : ∀ x ∈ l, p x = false) : l.filter p = [] := by
  induction l with
  | nil => rfl
  | cons a rest ih =>
    simp only [List.filter_cons, h a (List.mem_cons_self a rest)]
    exact ih fun x hx => h x (List.mem_cons_of_mem a hx)

/-- Spreading the same well-formed update object twice is spreading it
once: the second `{... , ...new}` rewrites nothing further. -/
theorem spreadFields_idem (a news : List (String × String))
    (hwf : WFFields news) :
    spreadFields (spreadFields a news) news = spreadFields a news := by
  unfold spreadFields
  rw [List.map_append]
  have hA : (a.map (updEntry news)).map (updEntry news)
      = a.map (updEntry news) := by
    rw [List.map_map]
    exact List.map_congr_left fun kv _ => updEntry_idem news kv
  have hC : ((news.filter fun kv => (lookupField kv.1 a).isNone).map
      (updEntry news))
      = news.filter fun kv => (lookupField kv.1 a).isNone := by
    apply map_eq_self_of_mem
    intro kv hkv
    have hmem : kv ∈ news := (List.mem_filter.mp hkv).1
    obtain ⟨k, v⟩ := kv
    have : lookupField k news = some v := lookupField_eq_of_mem_nodup hwf hmem
    simp [updEntry, this]
  have hB : (news.filter fun kv =>
      (lookupField kv.1 (a.map (updEntry news) ++
        news.filter fun kv2 => (lookupField kv2.1 a).isNone)).isNone) = [] := by
    apply filter_eq_nil_of_mem
    intro kv hkv
    obtain ⟨k, v⟩ := kv
    by_cases ha : (lookupField k a).isSome
    · have h1 : (lookupField k (a.map (updEntry news))).isSome := by
        rw [lookupField_map_updEntry_isSome]; exact ha
      obtain ⟨w, hw⟩ := Option.isSome_iff_exists.mp h1
      rw [lookupField_append_left h1, hw]
      rfl
    · have h0 : lookupField k a = none := by
        cases hx : lookupField k a
        · rfl
        · rw [hx] at ha; simp at ha
      have h1 : lookupField k (a.map (updEntry news)) = none := by
        have := @lookupField_map_updEntry_isSome news k a
        rw [h0] at this
        cases hx : lookupField k (a.map (updEntry news))
        · rfl
        · rw [hx] at this; simp at this
      rw [lookupField_append_right h1]
      have hmem : (k, v) ∈ news.filter
          fun kv2 => (lookupField kv2.1 a).isNone := by
        apply List.mem_filter.mpr
        exact ⟨hkv, by simp [h0]⟩
      obtain ⟨w, hw⟩ :=
        Option.isSome_iff_exists.mp (lookupField_isSome_of_mem hmem)
      rw [hw]
      rfl
  rw [hA, hC, hB, List.append_nil]

/-- Merging the same well-formed updated task twice equals merging once. -/
theorem mergeTask_idem (old news : Task) (hwf : WFFields news.fields) :
    mergeTask (mergeTask old news) news = mergeTask old news := by
  unfold mergeTask
  simp only [Task.mk.injEq, true_and]
  exact spreadFields_idem old.fields news.fields hwf

theorem filter_eq_self_of_mem {α : Type} {p : α → Bool} {l : List α}
    (h : ∀ x ∈ l, p x = true) : l.filter p = l := by
  induction l with
  | nil => rfl
  | cons a rest ih =>
    simp only [List.filter_cons, h a (List.mem_cons_self a rest), if_true]
    rw [ih fun x hx => h x (List.mem_cons_of_mem a hx)]

/-- C1: for every task collection and every task `t` (a JS object, so its
field names are duplicate-free), applying the update-merge patch
`applyUpdate t` twice in succession yields the same collection as applying
it once. -/
theorem applyUpdate_idempotent (t : Task) (tasks : List Task)
    (hwf : WFFields t.fields) :
    applyUpdate t (applyUpdate t tasks) = applyUpdate t tasks := by
  unfold applyUpdate
  rw [List.map_map]
  apply List.map_congr_left
  intro task _
  by_cases h : task.id = t.id
  · have hm : (mergeTask task t).id = t.id := rfl
    simp only [Function.comp_apply, if_pos h, if_pos hm]
    exact mergeTask_idem task t hwf
  · simp only [Function.comp_apply, if_neg h]

/-- Witness for C1 at a concrete collection and update. -/
theorem applyUpdate_idempotent_witness :
    WFFields [("status", "Completed"), ("title", "Ship")] ∧
    applyUpdate ⟨"t1", [("status", "Completed"), ("title", "Ship")]⟩
        (applyUpdate ⟨"t1", [("status", "Completed"), ("title", "Ship")]⟩
          [⟨"t1", [("title", "Old"), ("priority", "Low")]⟩, ⟨"t2", []⟩])
      = applyUpdate ⟨"t1", [("status", "Completed"), ("title", "Ship")]⟩
          [⟨"t1", [("title", "Old"), ("priority", "Low")]⟩, ⟨"t2", []⟩] :=
  ⟨by decide, applyUpdate_idempotent _ _ (by decide)⟩

/-- C2: `applyCreate t` prepends `t` unconditionally; applying it twice
with the same task yields a collection holding two entries with `t`'s id
(`applyCreate` is not idempotent). -/
theorem applyCreate_prepends_not_idempotent (t : Task) (tasks : List Task) :
    applyCreate t tasks = t :: tasks ∧
    applyCreate t (applyCreate t tasks) = t :: t :: tasks ∧
    2 ≤ ((applyCreate t (applyCreate t tasks)).filter
        fun task => task.id == t.id).length := by
  refine ⟨rfl, rfl, ?_⟩
  show 2 ≤ ((t :: t :: tasks).filter fun task => task.id == t.id).length
  simp only [List.filter_cons, beq_self_eq_true, if_true, List.length_cons]
  omega

/-- C3: when no entry of the collection carries the id, `applyDelete` of
that id and `applyUpdate` of a task with that id leave the collection
unchanged — an update for an unknown id is not an implicit create. -/
theorem applyDelete_applyUpdate_noop (t : Task) (tasks : List Task)
    (habsent : ∀ task ∈ tasks, task.id ≠ t.id) :
    applyDelete t.id tasks = tasks ∧ applyUpdate t tasks = tasks := by
  constructor
  · unfold applyDelete
    exact filter_eq_self_of_mem fun task htask =>
      decide_eq_true (habsent task htask)
  · unfold applyUpdate
    exact map_eq_self_of_mem fun task htask => if_neg (habsent task htask)

/-- Witness for C3: deleting and updating an id absent from the list. -/
theorem applyDelete_applyUpdate_noop_witness :
    applyDelete "b" [(⟨"a", [("title", "x")]⟩ : Task)]
        = [(⟨"a", [("title", "x")]⟩ : Task)] ∧
    applyUpdate ⟨"b", [("status", "Review")]⟩ [(⟨"a", [("title", "x")]⟩ : Task)]
        = [(⟨"a", [("title", "x")]⟩ : Task)] :=
  applyDelete_applyUpdate_noop ⟨"b", [("status", "Review")]⟩
    [⟨"a", [("title", "x")]⟩] (by decide)

/-- C10: `applyUpdate t` preserves the collection's length, preserves the
identifier at every position (so the order of entries is unchanged), and
leaves every entry whose id differs from `t.id` exactly unchanged. -/
theorem applyUpdate_frame (t : Task) (tasks : List Task) :
    (applyUpdate t tasks).length = tasks.length ∧
    (∀ i : Nat, ((applyUpdate t tasks)[i]?).map Task.id
        = (tasks[i]?).map Task.id) ∧
    (∀ i : Nat, ∀ task : Task, tasks[i]? = some task → task.id ≠ t.id →
      (applyUpdate t tasks)[i]? = some task) := by
  refine ⟨by simp [applyUpdate], ?_, ?_⟩
  · intro i
    unfold applyUpdate
    rw [List.getElem?_map]
    cases tasks[i]? with
    | none => rfl
    | some task =>
      show some (Task.id (if task.id = t.id then mergeTask task t else task))
        = some task.id
      by_cases h : task.id = t.id
      · have hm : (mergeTask task t).id = t.id := rfl
        rw [if_pos h, hm, h]
      · rw [if_neg h]
  · intro i task h hne
    unfold applyUpdate
    rw [List.getElem?_map, h]
    show some (if task.id = t.id then mergeTask task t else task) = some task
    rw [if_neg hne]

/-- C4: every failed load leaves the previous cached collection in place,
surfaces an error message, signals the login redirect when the status is
401, and finishes loading.  `getTasksData` being total in the error models
that the catch block lets no rejection escape unhandled. -/
theorem getTasksData_failure (prev : TasksState) (err : FetchErr) :
    (getTasksData prev (.error err)).tasks = prev.tasks ∧
    ((getTasksData prev (.error err)).error).isSome = true ∧
    (err.status = some 401 →
      (getTasksData prev (.error err)).redirectedToLogin = true) ∧
    (getTasksData prev (.error err)).isLoading = false := by
  refine ⟨rfl, rfl, ?_, rfl⟩
  intro h
  show (err.status == some 401) = true
  rw [h]
  exact beq_self_eq_true _

/-- Witness for C4: a 401 rejection against a non-empty cached list. -/
theorem getTasksData_failure_witness :
    (getTasksData ⟨[⟨"a", []⟩], false, none, false⟩
        (.error ⟨some 401, none⟩)).tasks = [⟨"a", []⟩] ∧
    (getTasksData ⟨[⟨"a", []⟩], false, none, false⟩
        (.error ⟨some 401, none⟩)).redirectedToLogin = true :=
  ⟨(getTasksData_failure ⟨[⟨"a", []⟩], false, none, false⟩
      ⟨some 401, none⟩).1,
   (getTasksData_failure ⟨[⟨"a", []⟩], false, none, false⟩
      ⟨some 401, none⟩).2.2.1 rfl⟩

/-- C9: the overdue predicate holds exactly when a due date is present,
strictly in the past, and the status is not Completed; one second past due
with status To Do is overdue, the same with status Completed is not, and
one hour in the future is never overdue whatever the status. -/
theorem isOverdue_correct (t : ItemTask) (now : Int) :
    (isOverdue t now = true ↔
      ∃ d, t.dueDate = some d ∧ d < now ∧ t.status ≠ "Completed") ∧
    isOverdue { t with dueDate := some (now - 1000), status := "To Do" } now
      = true ∧
    isOverdue { t with dueDate := some (now - 1000), status := "Completed" } now
      = false ∧
    isOverdue { t with dueDate := some (now + 3600000) } now = false := by
  refine ⟨?_, ?_, ?_, ?_⟩
  · cases hd : t.dueDate with
    | none => simp [isOverdue, hd]
    | some d => simp [isOverdue, hd]
  · show (decide (now - 1000 < now)
        && decide (("To Do" : String) ≠ "Completed")) = true
    rw [Bool.and_eq_true]
    exact ⟨decide_eq_true (by omega), by decide⟩
  · show (decide (now - 1000 < now)
        && decide (("Completed" : String) ≠ "Completed")) = false
    have h : decide (("Completed" : String) ≠ "Completed") = false := by decide
    rw [h, Bool.and_false]
  · show (decide (now + 3600000 < now)
        && decide (t.status ≠ "Completed")) = false
    have h : decide (now + 3600000 < now) = false := decide_eq_false (by omega)
    rw [h, Bool.false_and]

/-- Witness for C9: one second past due, status To Do, is overdue. -/
theorem isOverdue_correct_witness :
    isOverdue { (⟨"t1", "Ship", "Review", "High", none⟩ : ItemTask) with
        dueDate := some ((0 : Int) - 1000), status := "To Do" } 0 = true :=
  (isOverdue_correct ⟨"t1", "Ship", "Review", "High", none⟩ 0).2.1

/-- Witness for C10 at a concrete collection: the non-matching entry at
position 0 is returned unchanged. -/
theorem applyUpdate_frame_witness :
    (applyUpdate ⟨"b", [("status", "Done")]⟩ [(⟨"a", []⟩ : Task)])[0]?
      = some ⟨"a", []⟩ :=
  (applyUpdate_frame ⟨"b", [("status", "Done")]⟩ [⟨"a", []⟩]).2.2 0
    ⟨"a", []⟩ rfl (by decide)

/- ### Emission ordering of the mutation handlers -/

theorem noEmit_nil : noEmit [] :=
  fun _ h => List.not_mem_nil _ h

theorem noEmit_single_write (b : Bool) : noEmit [Action.remoteWrite b] := by
  intro e h
  simp [List.mem_cons] at h

theorem emitsAfterSuccess_nil : emitsAfterSuccess [] := by
  intro i e h
  simp at h

theorem emitsAfterSuccess_single_write (b : Bool) :
    emitsAfterSuccess [Action.remoteWrite b] := by
  intro i e h
  match i with
  | 0 => simp at h
  | n + 1 => simp at h

theorem emitsAfterSuccess_write_cons (tr : List Action) :
    emitsAfterSuccess (Action.remoteWrite true :: tr) := by
  intro i e h
  match i with
  | 0 => simp at h
  | n + 1 => exact ⟨0, Nat.succ_pos n, by simp⟩

/-- C5: for each local mutation — status update, priority update, delete,
and the form submit — a failed remote write emits no channel event, and
every channel emission in the handler's trace is preceded by the remote
write already having succeeded. -/
theorem emit_only_after_successful_write (task : ItemTask)
    (newStatus newPriority : String) (initialData : Option ItemTask)
    (validationOk : Bool) (data : SubmitData) (err : FetchErr) :
    noEmit (handleStatusChange task newStatus (.error err)) ∧
    noEmit (handlePriorityChange task newPriority (.error err)) ∧
    noEmit (handleDelete task (.error err)) ∧
    noEmit (onSubmit initialData validationOk data (.error err)) ∧
    (∀ wr, emitsAfterSuccess (handleStatusChange task newStatus wr)) ∧
    (∀ wr, emitsAfterSuccess (handlePriorityChange task newPriority wr)) ∧
    (∀ wr, emitsAfterSuccess (handleDelete task wr)) ∧
    (∀ wr, emitsAfterSuccess (onSubmit initialData validationOk data wr)) := by
  refine ⟨?_, ?_, ?_, ?_, ?_, ?_, ?_, ?_⟩
  · unfold handleStatusChange
    split
    · exact noEmit_nil
    · exact noEmit_single_write false
  · unfold handlePriorityChange
    split
    · exact noEmit_nil
    · exact noEmit_single_write false
  · exact noEmit_single_write false
  · unfold onSubmit
    split
    · exact noEmit_nil
    · cases initialData <;> exact noEmit_single_write false
  · intro wr
    unfold handleStatusChange
    split
    · exact emitsAfterSuccess_nil
    · cases wr
      · exact emitsAfterSuccess_single_write false
      · exact emitsAfterSuccess_write_cons _
  · intro wr
    unfold handlePriorityChange
    split
    · exact emitsAfterSuccess_nil
    · cases wr
      · exact emitsAfterSuccess_single_write false
      · exact emitsAfterSuccess_write_cons _
  · intro wr
    cases wr
    · exact emitsAfterSuccess_single_write false
    · exact emitsAfterSuccess_write_cons _
  · intro wr
    unfold onSubmit
    split
    · exact emitsAfterSuccess_nil
    · cases initialData <;> cases wr
      · exact emitsAfterSuccess_single_write false
      · exact emitsAfterSuccess_write_cons _
      · exact emitsAfterSuccess_single_write false
      · exact emitsAfterSuccess_write_cons _

/-- Witness for C5: a failed delete emits nothing concrete. -/
theorem emit_only_after_successful_write_witness :
    Action.emit (ChannelEvent.taskDeleted "t1")
      ∉ handleDelete ⟨"t1", "Ship", "To Do", "High", none⟩
          (.error ⟨none, none⟩) :=
  (emit_only_after_successful_write ⟨"t1", "Ship", "To Do", "High", none⟩
      "In Progress" "Low" none true ⟨"s", "d", "Medium", "To Do", none, none⟩
      ⟨none, none⟩).2.2.1 (ChannelEvent.taskDeleted "t1")

/-- C6 fails on the code: in the TaskForm edit branch a successful update
write is followed by a `task-created` emission carrying the update
response, and no `task-updated` event appears — while the TaskItem
priority handler does emit `task-updated`.  Evaluated at the failing
input. -/
theorem onSubmit_update_emits_taskCreated :
    onSubmit (some ⟨"t1", "Ship", "To Do", "High", none⟩) true
        ⟨"Ship", "", "High", "In Progress", none, none⟩
        (.ok (some ⟨"t1", "Ship", "In Progress", "High", none⟩))
      = [.remoteWrite true,
         .emit (.taskCreated (some ⟨"t1", "Ship", "In Progress", "High", none⟩))] ∧
    Action.emit (.taskUpdated (some ⟨"t1", "Ship", "In Progress", "High", none⟩))
      ∉ onSubmit (some ⟨"t1", "Ship", "To Do", "High", none⟩) true
          ⟨"Ship", "", "High", "In Progress", none, none⟩
          (.ok (some ⟨"t1", "Ship", "In Progress", "High", none⟩)) ∧
    handlePriorityChange ⟨"t1", "Ship", "To Do", "High", none⟩ "Low"
        (.ok (some ⟨"t1", "Ship", "To Do", "Low", none⟩))
      = [.remoteWrite true,
         .emit (.taskUpdated (some ⟨"t1", "Ship", "To Do", "Low", none⟩))] := by
  refine ⟨rfl, ?_, by decide⟩
  intro h
  rcases List.mem_cons.mp h with h | h
  · simp at h
  · rcases List.mem_cons.mp h with h | h
    · simp at h
    · exact List.not_mem_nil _ h

/- ### The socket singleton -/

/-- C7: calling `initSocket` while a connection is live allocates no new
transport instance — it re-announces the userId with a `user-join` emit on
the existing connection and returns that same instance — and the installed
`connect` handler re-announces the userId on every successful
(re)connect. -/
theorem initSocket_live_idempotent (userId : String) (st : SocketModule)
    (s : Socket) (hs : st.socket = some s) (hc : s.connected = true) :
    (initSocket userId st).1.instanceId = s.instanceId ∧
    (initSocket userId st).2.nextInstanceId = st.nextInstanceId ∧
    (initSocket userId st).2.socket = some (initSocket userId st).1 ∧
    (initSocket userId st).1.emitted = s.emitted ++ [("user-join", userId)] ∧
    (∀ sock : Socket,
      (handleConnect sock).emitted
          = sock.emitted ++ [("user-join", sock.joinUserId)] ∧
      (handleConnect sock).connected = true) := by
  have h1 : initSocket userId st
      = (⟨s.instanceId, s.connected, s.joinUserId,
            s.emitted ++ [("user-join", userId)], s.handlers⟩,
         ⟨some ⟨s.instanceId, s.connected, s.joinUserId,
            s.emitted ++ [("user-join", userId)], s.handlers⟩,
          st.nextInstanceId⟩) := by
    unfold initSocket
    rw [hs]
    simp [hc]
  rw [h1]
  exact ⟨rfl, rfl, rfl, rfl, fun sock => ⟨rfl, rfl⟩⟩

/-- Witness for C7: re-opening on a live connection keeps instance 0 and
allocates nothing. -/
theorem initSocket_live_idempotent_witness :
    (initSocket "u2" ⟨some ⟨0, true, "u1", [], []⟩, 1⟩).1.instanceId = 0 ∧
    (initSocket "u2" ⟨some ⟨0, true, "u1", [], []⟩, 1⟩).2.nextInstanceId = 1 :=
  ⟨(initSocket_live_idempotent "u2" ⟨some ⟨0, true, "u1", [], []⟩, 1⟩
      ⟨0, true, "u1", [], []⟩ rfl rfl).1,
   (initSocket_live_idempotent "u2" ⟨some ⟨0, true, "u1", [], []⟩, 1⟩
      ⟨0, true, "u1", [], []⟩ rfl rfl).2.1⟩

/- ### Inbound registration returns no disposal value -/

/-- C8 as stated fails on the code: each registration helper returns
`undefined` (here `none`), so the caller receives no subscription it
could dispose — shown at a concrete live connection, where the optional
disposal call of the effect cleanup also leaves the handler registered. -/
theorem registration_no_disposal_counterexample :
    (onTaskUpdated 0 ⟨some ⟨0, true, "u1", [], []⟩, 1⟩).1 = none ∧
    (onTaskCreated 1 ⟨some ⟨0, true, "u1", [], []⟩, 1⟩).1 = none ∧
    (onTaskDeleted 2 ⟨some ⟨0, true, "u1", [], []⟩, 1⟩).1 = none ∧
    (onAssignmentNotification 3 ⟨some ⟨0, true, "u1", [], []⟩, 1⟩).1 = none ∧
    effectCleanup (onTaskUpdated 0 ⟨some ⟨0, true, "u1", [], []⟩, 1⟩).1
        (onTaskUpdated 0 ⟨some ⟨0, true, "u1", [], []⟩, 1⟩).2
      = ⟨some ⟨0, true, "u1", [], [("task-updated", 0)]⟩, 1⟩ :=
  ⟨rfl, rfl, rfl, rfl, rfl⟩

/-- C8 amended: registering a handler appends it to the live connection's
handler list (a no-op without a connection) but returns no disposal value,
so the effect cleanup's optional call leaves the state — and the handler —
untouched.  The four helpers are `socketOn` at their event names. -/
theorem registration_registers_but_returns_none (eventName : String)
    (cb : Nat) (st : SocketModule) :
    (socketOn eventName cb st).1 = none ∧
    (∀ s : Socket, st.socket = some s →
      (socketOn eventName cb st).2.socket
        = some { s with handlers := s.handlers ++ [(eventName, cb)] }) ∧
    (st.socket = none → (socketOn eventName cb st).2 = st) ∧
    effectCleanup (socketOn eventName cb st).1 (socketOn eventName cb st).2
      = (socketOn eventName cb st).2 ∧
    onTaskUpdated = socketOn "task-updated" ∧
    onTaskCreated = socketOn "task-created" ∧
    onTaskDeleted = socketOn "task-deleted" ∧
    onAssignmentNotification = socketOn "assignment-notification" := by
  have h1 : (socketOn eventName cb st).1 = none := by
    unfold socketOn
    cases hst : st.socket <;> rfl
  refine ⟨h1, ?_, ?_, ?_, rfl, rfl, rfl, rfl⟩
  · intro s hs
    unfold socketOn
    rw [hs]
  · intro hs
    unfold socketOn
    rw [hs]
  · rw [h1]
    exact rfl

/-- Witness for C8's amended statement at a live connection. -/
theorem registration_registers_but_returns_none_witness :
    (socketOn "task-updated" 0 ⟨some ⟨0, true, "u1", [], []⟩, 1⟩).2.socket
      = some ⟨0, true, "u1", [], [("task-updated", 0)]⟩ :=
  (registration_registers_but_returns_none "task-updated" 0
      ⟨some ⟨0, true, "u1", [], []⟩, 1⟩).2.1 ⟨0, true, "u1", [], []⟩ rfl

end TaskManager
